import Mathlib

/-!
# Verification of the Financial Document Anomaly Detector (`src/anomaly.py`)

Shallow embedding of the non-UI core of the detector: the fingerprinter
(`calculate_hash`, MD5 hex digest of the UTF-8 encoded text), the regex field
parsers (`extract_gstin`, `extract_gst_rate` and the amount patterns inside
`check_calculations`), the rule checks (`validate_gst_rate`,
`check_calculations`, and the four rule blocks of `process_document`), and the
session-store processing loop (lines 185-208) together with the
"Clear All Data" action (lines 250-252).

Extraction from PDF/image is an external collaborator (pdfplumber /
pytesseract); documents enter the model as `(name, extractedText)` pairs, the
extracted text being whatever the extractor returned (possibly `""` on
failure). Python strings are modelled as Lean `String` restricted to their
ASCII behaviour (the regexes only involve ASCII classes), Python floats as
`ℚ` (all amounts parsed by the `\d+\.\d{2}` patterns are exact multiples of
1/100), and Python's leftmost-match `re.search`/`re.findall[0]` as a scan
that tries the (deterministic, backtracking-free on these patterns) matcher
at each successive start position.
-/

attribute [local semireducible] Rat.add Rat.mul Rat.sub Rat.inv Rat.ofScientific

namespace Anomaly

/-! ## Fingerprinter: `calculate_hash` (anomaly.py lines 78-80)

`hashlib.md5(content.encode()).hexdigest()` — MD5 over the UTF-8 bytes,
rendered as 32 lowercase hex characters.  32-bit words are `Nat` reduced
mod 2^32 at every operation that can overflow. -/

/-- UTF-8 encoding of one character (what Python's `str.encode()` produces
per code point). -/
def utf8EncodeChar (c : Char) : List Nat :=
  let n := c.toNat
  if n < 128 then [n]
  else if n < 2048 then [192 + n / 64, 128 + n % 64]
  else if n < 65536 then [224 + n / 4096, 128 + (n / 64) % 64, 128 + n % 64]
  else [240 + n / 262144, 128 + (n / 4096) % 64, 128 + (n / 64) % 64, 128 + n % 64]

/-- UTF-8 bytes of a string (`content.encode()`). -/
def encodeUTF8 (s : String) : List Nat :=
  s.data.foldr (fun c acc => utf8EncodeChar c ++ acc) []

/-- MD5 per-round left-rotation amounts. -/
def md5s : List Nat :=
  [7, 12, 17, 22, 7, 12, 17, 22, 7, 12, 17, 22, 7, 12, 17, 22,
   5, 9, 14, 20, 5, 9, 14, 20, 5, 9, 14, 20, 5, 9, 14, 20,
   4, 11, 16, 23, 4, 11, 16, 23, 4, 11, 16, 23, 4, 11, 16, 23,
   6, 10, 15, 21, 6, 10, 15, 21, 6, 10, 15, 21, 6, 10, 15, 21]

/-- MD5 sine-derived round constants. -/
def md5K : List Nat :=
  [0xd76aa478, 0xe8c7b756, 0x242070db, 0xc1bdceee,
   0xf57c0faf, 0x4787c62a, 0xa8304613, 0xfd469501,
   0x698098d8, 0x8b44f7af, 0xffff5bb1, 0x895cd7be,
   0x6b901122, 0xfd987193, 0xa679438e, 0x49b40821,
   0xf61e2562, 0xc040b340, 0x265e5a51, 0xe9b6c7aa,
   0xd62f105d, 0x02441453, 0xd8a1e681, 0xe7d3fbc8,
   0x21e1cde6, 0xc33707d6, 0xf4d50d87, 0x455a14ed,
   0xa9e3e905, 0xfcefa3f8, 0x676f02d9, 0x8d2a4c8a,
   0xfffa3942, 0x8771f681, 0x6d9d6122, 0xfde5380c,
   0xa4beea44, 0x4bdecfa9, 0xf6bb4b60, 0xbebfbc70,
   0x289b7ec6, 0xeaa127fa, 0xd4ef3085, 0x04881d05,
   0xd9d4d039, 0xe6db99e5, 0x1fa27cf8, 0xc4ac5665,
   0xf4292244, 0x432aff97, 0xab9423a7, 0xfc93a039,
   0x655b59c3, 0x8f0ccc92, 0xffeff47d, 0x85845dd1,
   0x6fa87e4f, 0xfe2ce6e0, 0xa3014314, 0x4e0811a1,
   0xf7537e82, 0xbd3af235, 0x2ad7d2bb, 0xeb86d391]

/-- Rotate a 32-bit word (given as a `Nat` below 2^32) left by `n` bits. -/
def rotl32 (x n : Nat) : Nat :=
  ((x <<< n) ||| (x >>> (32 - n))) % 4294967296

/-- MD5 round mixing function (F, G, H, I by round index). -/
def md5F (i b c d : Nat) : Nat :=
  if i < 16 then (b &&& c) ||| ((b ^^^ 4294967295) &&& d)
  else if i < 32 then (d &&& b) ||| ((d ^^^ 4294967295) &&& c)
  else if i < 48 then b ^^^ c ^^^ d
  else c ^^^ (b ||| (d ^^^ 4294967295))

/-- MD5 message-word index by round. -/
def md5G (i : Nat) : Nat :=
  if i < 16 then i
  else if i < 32 then (5 * i + 1) % 16
  else if i < 48 then (3 * i + 5) % 16
  else (7 * i) % 16

/-- One MD5 round on state `(a, b, c, d)` with message words `M`. -/
def md5Round (M : List Nat) (st : Nat × Nat × Nat × Nat) (i : Nat) :
    Nat × Nat × Nat × Nat :=
  let (a, b, c, d) := st
  let f := md5F i b c d
  let x := (a + f + md5K.getD i 0 + M.getD (md5G i) 0) % 4294967296
  (d, (b + rotl32 x (md5s.getD i 0)) % 4294967296, b, c)

/-- Process one padded 64-byte block. -/
def md5Block (chunk : List Nat) (st : Nat × Nat × Nat × Nat) :
    Nat × Nat × Nat × Nat :=
  let M := (List.range 16).map fun j =>
    chunk.getD (4 * j) 0 + 256 * chunk.getD (4 * j + 1) 0 +
      65536 * chunk.getD (4 * j + 2) 0 + 16777216 * chunk.getD (4 * j + 3) 0
  let (a0, b0, c0, d0) := st
  let (a, b, c, d) := (List.range 64).foldl (md5Round M) (a0, b0, c0, d0)
  ((a0 + a) % 4294967296, (b0 + b) % 4294967296,
   (c0 + c) % 4294967296, (d0 + d) % 4294967296)

/-- MD5 padding: append `0x80`, zero-fill to 56 mod 64, then the original
bit length as 8 little-endian bytes. -/
def md5Pad (msg : List Nat) : List Nat :=
  let len := msg.length
  let padLen := (120 - (len + 1) % 64) % 64
  let bitLen := (8 * len) % 18446744073709551616
  msg ++ [128] ++ List.replicate padLen 0 ++
    (List.range 8).map fun j => (bitLen >>> (8 * j)) % 256

/-- Fold `md5Block` over the `k` 64-byte blocks of the padded message. -/
def md5Loop : Nat → List Nat → Nat × Nat × Nat × Nat → Nat × Nat × Nat × Nat
  | 0, _, st => st
  | k + 1, l, st => md5Loop k (l.drop 64) (md5Block (l.take 64) st)

/-- MD5 digest of a byte sequence, as the four 32-bit state words. -/
def md5Words (msg : List Nat) : Nat × Nat × Nat × Nat :=
  let padded := md5Pad msg
  md5Loop (padded.length / 64) padded (0x67452301, 0xefcdab89, 0x98badcfe, 0x10325476)

/-- Lowercase hex digit. -/
def hexChar (n : Nat) : Char :=
  if n < 10 then Char.ofNat (48 + n) else Char.ofNat (87 + n)

/-- Two lowercase hex digits of one byte. -/
def byteToHex (b : Nat) : List Char :=
  [hexChar (b / 16), hexChar (b % 16)]

/-- A 32-bit word rendered as 8 hex digits, little-endian byte order
(as `hexdigest` renders the MD5 state). -/
def wordToHexLE (w : Nat) : List Char :=
  byteToHex (w % 256) ++ byteToHex ((w >>> 8) % 256) ++
    byteToHex ((w >>> 16) % 256) ++ byteToHex ((w >>> 24) % 256)

/-- Model of `calculate_hash` (anomaly.py lines 78-80):
`hashlib.md5(content.encode()).hexdigest()`. -/
def calculate_hash (content : String) : String :=
  let (a, b, c, d) := md5Words (encodeUTF8 content)
  String.mk (wordToHexLE a ++ wordToHexLE b ++ wordToHexLE c ++ wordToHexLE d)

/-! ## Regex machinery

The patterns in the source (`[0-9]{2}[A-Z]{5}...`, `GST\s*@?\s*(\d+)%`,
`<Label>\s*:\s*(\d+\.\d{2})`) contain no constructs where Python's
backtracking differs from a greedy one-pass scan: every `\s*` / `\d+` is
followed by a character its class cannot match.  `re.search` and
`re.findall(...)[0]` return the match at the leftmost possible start, which
`searchFirst` reproduces by trying the matcher at each successive suffix. -/

/-- Python `\s` on the ASCII fragment. -/
def isSpaceC (c : Char) : Bool :=
  c = ' ' || c = '\t' || c = '\n' || c = '\x0d' || c = '\x0b' || c = '\x0c'

/-- Leftmost-match search: try `f` at every start position, left to right. -/
def searchFirst {α : Type} (f : List Char → Option α) : List Char → Option α
  | [] => f []
  | c :: cs =>
    match f (c :: cs) with
    | some r => some r
    | none => searchFirst f cs

/-- Match a sequence of single-character classes at the head of the input,
returning the matched characters. -/
def matchClasses : List (Char → Bool) → List Char → Option (List Char)
  | [], _ => some []
  | _ :: _, [] => none
  | p :: ps, c :: cs =>
    if p c then (matchClasses ps cs).map (c :: ·) else none

/-- Match a literal case-insensitively at the head, returning the rest. -/
def matchCI : List Char → List Char → Option (List Char)
  | [], cs => some cs
  | _ :: _, [] => none
  | l :: ls, c :: cs => if c.toUpper = l.toUpper then matchCI ls cs else none

/-! ## Field parsers (anomaly.py lines 82-94 and the amount patterns of
`check_calculations`, lines 96-120) -/

/-- The character classes of the GSTIN regex
`[0-9]{2}[A-Z]{5}[0-9]{4}[A-Z]{1}[1-9A-Z]{1}[Z]{1}[0-9A-Z]{1}`
(15 single-character classes). -/
def gstinClasses : List (Char → Bool) :=
  [Char.isDigit, Char.isDigit,
   Char.isUpper, Char.isUpper, Char.isUpper, Char.isUpper, Char.isUpper,
   Char.isDigit, Char.isDigit, Char.isDigit, Char.isDigit,
   Char.isUpper,
   fun c => ('1' ≤ c && c ≤ '9') || c.isUpper,
   fun c => c = 'Z',
   fun c => c.isDigit || c.isUpper]

/-- Python `str.upper()` on the ASCII fragment, written structurally so that
proofs can evaluate it. -/
def upperAscii (s : String) : String := String.mk (s.data.map Char.toUpper)

/-- Model of `extract_gstin` (lines 82-86): first match of the GSTIN regex over the
uppercased text, or `none`. -/
def extract_gstin (text : String) : Option String :=
  (searchFirst (matchClasses gstinClasses) (upperAscii text).data).map
    fun cs => String.mk cs

/-- Matcher for `GST\s*@?\s*(\d+)%` (case-insensitive) anchored at the head;
returns the captured digit string. -/
def matchGstRateAt : List Char → Option String
  | c1 :: c2 :: c3 :: rest =>
    if c1.toUpper = 'G' && c2.toUpper = 'S' && c3.toUpper = 'T' then
      let r1 := rest.dropWhile isSpaceC
      let r2 := match r1 with
        | '@' :: r => r.dropWhile isSpaceC
        | _ => r1
      match r2.span Char.isDigit with
      | ([], _) => none
      | (ds, r3) =>
        match r3 with
        | '%' :: _ => some (String.mk ds)
        | _ => none
    else none
  | _ => none

/-- Model of `extract_gst_rate` (lines 88-94): `re.search(r'GST\s*@?\s*(\d+)%', text,
re.IGNORECASE)`, returning the captured digit group. -/
def extract_gst_rate (text : String) : Option String :=
  searchFirst matchGstRateAt text.data

/-- Numeric value of a digit string. -/
def digitsToNat (ds : List Char) : Nat :=
  ds.foldl (fun acc c => 10 * acc + (c.toNat - 48)) 0

/-- Value of `float("<ds>.<d1><d2>")`: exact, as a rational. -/
def decimalVal (ds : List Char) (d1 d2 : Char) : ℚ :=
  (digitsToNat ds : ℚ) +
    ((10 * (d1.toNat - 48) + (d2.toNat - 48) : Nat) : ℚ) / 100

/-- Matcher for the common amount tail `\s*:\s*(\d+\.\d{2})` anchored at the
head (after a label); returns the parsed amount. -/
def matchAmountTail (cs : List Char) : Option ℚ :=
  match cs.dropWhile isSpaceC with
  | ':' :: r2 =>
    match (r2.dropWhile isSpaceC).span Char.isDigit with
    | ([], _) => none
    | (ds, r4) =>
      match r4 with
      | '.' :: d1 :: d2 :: _ =>
        if d1.isDigit && d2.isDigit then some (decimalVal ds d1 d2) else none
      | _ => none
  | _ => none

/-- Matcher for `Total\s*:\s*(\d+\.\d{2})` anchored at the head. -/
def matchTotalAt (cs : List Char) : Option ℚ :=
  (matchCI "Total".data cs).bind matchAmountTail

/-- Matcher for `Sub\s*Total\s*:\s*(\d+\.\d{2})` anchored at the head. -/
def matchSubTotalAt (cs : List Char) : Option ℚ :=
  (matchCI "Sub".data cs).bind fun r =>
    (matchCI "Total".data (r.dropWhile isSpaceC)).bind matchAmountTail

/-- Matcher for `GST\s*:\s*(\d+\.\d{2})` anchored at the head. -/
def matchTaxAt (cs : List Char) : Option ℚ :=
  (matchCI "GST".data cs).bind matchAmountTail

/-! ## Rule helpers (anomaly.py lines 96-126) -/

/-- Python `repr`/f-string rendering of a float that is an exact multiple of
1/100 (every amount parsed by `\d+\.\d{2}` is): the shortest round-trip
decimal, e.g. `100.0`, `118.1`, `0.07`. -/
def pyFloatRepr (q : ℚ) : String :=
  let cents := (q * 100).num.toNat
  let ip := cents / 100
  let fr := cents % 100
  if fr = 0 then toString ip ++ ".0"
  else if fr % 10 = 0 then toString ip ++ "." ++ toString (fr / 10)
  else if fr < 10 then toString ip ++ ".0" ++ toString fr
  else toString ip ++ "." ++ toString fr

/-- Absolute value on the rationals without relying on lattice instances, to keep everything
kernel-evaluable. -/
def ratAbs (q : ℚ) : ℚ := if q < 0 then -q else q

/-- Model of `np.isclose(a, b, atol=0.01)` with numpy's default `rtol=1e-05`:
`|a - b| <= atol + rtol * |b|`. -/
def npIsClose (a b : ℚ) : Bool :=
  decide (ratAbs (a - b) ≤ 1 / 100 + 1 / 100000 * ratAbs b)

/-- Model of `check_calculations` (lines 96-120).  Note the `Total` pattern is found
by `re.search`, i.e. at the leftmost position in the whole text — which can
be inside an earlier `Sub Total : ...` line. -/
def check_calculations (text : String) : Bool × String :=
  match searchFirst matchTotalAt text.data with
  | none => (false, "Total amount not found")
  | some total =>
    match searchFirst matchSubTotalAt text.data,
          searchFirst matchTaxAt text.data with
    | some subtotal, some tax =>
      if !npIsClose total (subtotal + tax) then
        (false, "Calculation mismatch: " ++
          (pyFloatRepr subtotal ++ " + " ++ pyFloatRepr tax ++ " ≠ " ++
            pyFloatRepr total))
      else (true, "Calculations OK")
    | _, _ => (true, "Calculations OK")

/-- Model of `GST_RATES` (lines 28-34): standard-rate mapping keyed by digit string. -/
def GST_RATES : List (String × ℚ) :=
  [("0", 0), ("5", 5), ("12", 12), ("18", 18), ("28", 28)]

/-- Model of `validate_gst_rate` (lines 122-126): key membership in `GST_RATES`. -/
def validate_gst_rate (rate : String) : Bool × String :=
  if ¬ GST_RATES.any (fun kv => kv.1 = rate) then
    (false, "Non-standard GST rate: " ++ rate ++ "%")
  else (true, "Valid GST rate: " ++ rate ++ "%")

/-! ## Session store and `process_document` (anomaly.py lines 128-170,
185-208, 250-252) -/

/-- One entry of `st.session_state.processed_documents` (lines 199-205).
The `timestamp` field (`datetime.now()`, an external clock) plays no role in
any behaviour and is omitted. -/
structure StoredDoc where
  name : String
  hash : String
  text : String
  anomalies : List (String × String)
  deriving DecidableEq, Repr

/-- Model of `process_document` (lines 128-170), with extraction already performed:
`text` is what `extract_text_from_pdf` / `extract_text_from_image` returned
and `stored` is the session store consulted by the duplicate check.
The anomaly list is accumulated exactly as the Python code appends. -/
def process_document (stored : List StoredDoc) (text : String) :
    List (String × String) × String :=
  if text = "" then
    ([("Critical", "Could not extract text from document")], text)
  else
    let anomalies : List (String × String) := []
    let anomalies :=
      if stored.any (fun doc => doc.hash == calculate_hash text) then
        anomalies ++ [("High", "Duplicate document detected")]
      else anomalies
    let anomalies :=
      match extract_gstin text with
      | none => anomalies ++ [("High", "GSTIN not found in document")]
      | some gstin =>
        if gstin.length ≠ 15 then
          anomalies ++ [("High", "Invalid GSTIN format: " ++ gstin)]
        else anomalies
    let anomalies :=
      match extract_gst_rate text with
      | some gst_rate =>
        match validate_gst_rate gst_rate with
        | (is_valid, msg) =>
          if !is_valid then anomalies ++ [("Medium", msg)] else anomalies
      | none => anomalies ++ [("Low", "GST rate not specified")]
    let anomalies :=
      match check_calculations text with
      | (calc_ok, calc_msg) =>
        if !calc_ok then anomalies ++ [("High", calc_msg)] else anomalies
    (anomalies, text)

/-- The processing loop (lines 185-208): for each uploaded file, run
`process_document` against the current store and append the new record
(name, re-computed hash of the returned text, text, anomalies). -/
def processBatch (stored : List StoredDoc) : List (String × String) → List StoredDoc
  | [] => stored
  | (name, text) :: rest =>
    match process_document stored text with
    | (anomalies, text') =>
      processBatch
        (stored ++ [⟨name, calculate_hash text', text', anomalies⟩]) rest

/-- The "Clear All Data" action (lines 250-252):
`st.session_state.processed_documents = []`. -/
def clearStore (_stored : List StoredDoc) : List StoredDoc := []

/-! ## The four rule contributions, individually

These four definitions restate, one rule each, the four `anomalies` blocks of
`process_document`; the decomposition theorem below proves the accumulated
list is exactly their concatenation (for non-empty text). -/

/-- Rule 1 (lines 142-145): duplicate check against the store. -/
def duplicateAnomalies (stored : List StoredDoc) (text : String) :
    List (String × String) :=
  if stored.any (fun doc => doc.hash == calculate_hash text) then
    [("High", "Duplicate document detected")]
  else []

/-- Rule 2 (lines 147-154): GSTIN presence/format. -/
def gstinAnomalies (text : String) : List (String × String) :=
  match extract_gstin text with
  | none => [("High", "GSTIN not found in document")]
  | some gstin =>
    if gstin.length ≠ 15 then [("High", "Invalid GSTIN format: " ++ gstin)]
    else []

/-- Rule 3 (lines 156-163): GST rate validity. -/
def gstRateAnomalies (text : String) : List (String × String) :=
  match extract_gst_rate text with
  | some gst_rate =>
    match validate_gst_rate gst_rate with
    | (is_valid, msg) => if !is_valid then [("Medium", msg)] else []
  | none => [("Low", "GST rate not specified")]

/-- Rule 4 (lines 165-168): calculation check. -/
def calculationAnomalies (text : String) : List (String × String) :=
  match check_calculations text with
  | (calc_ok, calc_msg) => if !calc_ok then [("High", calc_msg)] else []

/-- Analysis form of the loop producing only the new records, with the store
threaded exactly as `processBatch` does (proved equal below). -/
def processFrom (stored : List StoredDoc) : List (String × String) → List StoredDoc
  | [] => []
  | (name, text) :: rest =>
    match process_document stored text with
    | (anomalies, text') =>
      let entry : StoredDoc := ⟨name, calculate_hash text', text', anomalies⟩
      entry :: processFrom (stored ++ [entry]) rest

/-! ## Helper lemmas -/

/-- Two appended strings differ when the first characters of their left
parts differ. -/
theorem append_ne_append_of_head_ne (a b : Char) (as bs : List Char)
    (s t u v : String) (hs : s.data = a :: as) (hu : u.data = b :: bs)
    (hab : a ≠ b) : s ++ t ≠ u ++ v := by
  intro h
  have h1 := congrArg String.data h
  rw [String.data_append, String.data_append, hs, hu, List.cons_append,
    List.cons_append] at h1
  injection h1 with h2 _
  exact hab h2

/-- Two strings differ when their first characters differ, even after an
arbitrary append on the left string. -/
theorem append_ne_of_head_ne (a b : Char) (as bs : List Char) (s t u : String)
    (hs : s.data = a :: as) (hu : u.data = b :: bs) (hab : a ≠ b) :
    s ++ t ≠ u := by
  intro h
  have h1 := congrArg String.data h
  rw [String.data_append, hs, hu, List.cons_append] at h1
  injection h1 with h2 _
  exact hab h2

/-- Function `process_document` returns the text it was given. -/
theorem process_document_snd (stored : List StoredDoc) (text : String) :
    (process_document stored text).2 = text := by
  unfold process_document
  split <;> rfl

/-- For non-empty text, the accumulated anomaly list of `process_document`
is exactly the concatenation of the four rules' independent contributions. -/
theorem process_document_decomp (stored : List StoredDoc) (text : String)
    (h : text ≠ "") :
    process_document stored text =
      (duplicateAnomalies stored text ++ gstinAnomalies text ++
        gstRateAnomalies text ++ calculationAnomalies text, text) := by
  unfold process_document duplicateAnomalies gstinAnomalies gstRateAnomalies
    calculationAnomalies
  rw [if_neg h]
  rcases hc : check_calculations text with ⟨ok, msg⟩
  cases hd : stored.any (fun doc => doc.hash == calculate_hash text) <;>
    rcases hg : extract_gstin text with _ | g <;>
      rcases hr : extract_gst_rate text with _ | r <;>
        simp only [hc, hd, hg, hr] <;>
          first
          | (rcases hv : validate_gst_rate r with ⟨v, m⟩ <;>
              simp only [hv] <;> split_ifs <;> simp)
          | (split_ifs <;> simp)

/-- Every entry of the duplicate rule is the duplicate anomaly. -/
theorem mem_duplicateAnomalies {stored : List StoredDoc} {text : String}
    {p : String × String} (hp : p ∈ duplicateAnomalies stored text) :
    p = ("High", "Duplicate document detected") := by
  unfold duplicateAnomalies at hp
  split at hp
  · simpa using hp
  · simp at hp

/-- The duplicate rule fires exactly when some stored hash matches. -/
theorem duplicateAnomalies_eq (stored : List StoredDoc) (text : String) :
    duplicateAnomalies stored text =
      if stored.any (fun doc => doc.hash == calculate_hash text) then
        [("High", "Duplicate document detected")]
      else [] := rfl

/-- Every entry of the GSTIN rule is "not found" or an "Invalid GSTIN
format" message built from a parsed GSTIN. -/
theorem mem_gstinAnomalies {text : String} {p : String × String}
    (hp : p ∈ gstinAnomalies text) :
    p = ("High", "GSTIN not found in document") ∨
      ∃ g, extract_gstin text = some g ∧
        p = ("High", "Invalid GSTIN format: " ++ g) := by
  rcases hg : extract_gstin text with _ | g
  · simp only [gstinAnomalies, hg] at hp
    exact Or.inl (by simpa using hp)
  · simp only [gstinAnomalies, hg] at hp
    split at hp
    · exact Or.inr ⟨g, rfl, by simpa using hp⟩
    · simp at hp

/-- Every entry of the rate rule is the `Low` "not specified" or a `Medium`
"Non-standard" message. -/
theorem mem_gstRateAnomalies {text : String} {p : String × String}
    (hp : p ∈ gstRateAnomalies text) :
    p = ("Low", "GST rate not specified") ∨
      ∃ r, p = ("Medium", "Non-standard GST rate: " ++ r ++ "%") := by
  rcases hr : extract_gst_rate text with _ | r
  · simp only [gstRateAnomalies, hr] at hp
    exact Or.inl (by simpa using hp)
  · simp only [gstRateAnomalies, hr, validate_gst_rate] at hp
    split at hp
    · simp at hp
      exact Or.inr ⟨r, by simp [hp]⟩
    · simp at hp

/-- When `check_calculations` fails, the message is "Total amount not
found" or a "Calculation mismatch: ..." message. -/
theorem check_calculations_shape (text : String) :
    (check_calculations text).1 = true ∨
      check_calculations text = (false, "Total amount not found") ∨
      ∃ s, check_calculations text = (false, "Calculation mismatch: " ++ s) := by
  rcases ht : searchFirst matchTotalAt text.data with _ | total
  · exact Or.inr (Or.inl (by simp [check_calculations, ht]))
  · rcases hs : searchFirst matchSubTotalAt text.data with _ | subtotal <;>
      rcases hx : searchFirst matchTaxAt text.data with _ | tax
    · exact Or.inl (by simp [check_calculations, ht, hs, hx])
    · exact Or.inl (by simp [check_calculations, ht, hs, hx])
    · exact Or.inl (by simp [check_calculations, ht, hs, hx])
    · by_cases hcl : npIsClose total (subtotal + tax)
      · exact Or.inl (by simp [check_calculations, ht, hs, hx, hcl])
      · exact Or.inr (Or.inr
          ⟨pyFloatRepr subtotal ++ " + " ++ pyFloatRepr tax ++ " ≠ " ++
              pyFloatRepr total,
            by simp [check_calculations, ht, hs, hx, hcl]⟩)

/-- Every entry of the calculation rule is `High` with a "Total amount not
found" or "Calculation mismatch: ..." message. -/
theorem mem_calculationAnomalies {text : String} {p : String × String}
    (hp : p ∈ calculationAnomalies text) :
    p = ("High", "Total amount not found") ∨
      ∃ s, p = ("High", "Calculation mismatch: " ++ s) := by
  unfold calculationAnomalies at hp
  rcases check_calculations_shape text with h1 | h1 | ⟨s, h1⟩
  · rcases hcc : check_calculations text with ⟨ok, msg⟩
    rw [hcc] at hp h1
    simp at h1
    simp [h1] at hp
  · rw [h1] at hp
    exact Or.inl (by simpa using hp)
  · rw [h1] at hp
    exact Or.inr ⟨s, by simpa using hp⟩

/-- Function `matchClasses` matches exactly one character per class. -/
theorem matchClasses_length {ps : List (Char → Bool)} {cs r : List Char}
    (h : matchClasses ps cs = some r) : r.length = ps.length := by
  induction ps generalizing cs r with
  | nil => simp [matchClasses] at h; simp [← h]
  | cons p ps ih =>
    cases cs with
    | nil => simp [matchClasses] at h
    | cons c cs =>
      unfold matchClasses at h
      split at h
      · rcases hm : matchClasses ps cs with _ | r' <;> rw [hm] at h <;>
          simp at h
        simp [← h, ih hm]
      · simp at h

/-- A successful leftmost search comes from a successful anchored match at
some suffix. -/
theorem searchFirst_some {α : Type} {f : List Char → Option α}
    {l : List Char} {r : α} (h : searchFirst f l = some r) :
    ∃ l', f l' = some r := by
  induction l with
  | nil => exact ⟨[], h⟩
  | cons c cs ih =>
    unfold searchFirst at h
    rcases hf : f (c :: cs) with _ | r'
    · rw [hf] at h
      exact ih (by simpa using h)
    · rw [hf] at h
      have hr : r' = r := by simpa using h
      exact ⟨c :: cs, by rw [hf, hr]⟩

/-- Whatever `extract_gstin` returns has length exactly 15: the regex
consists of 15 single-character classes. -/
theorem extract_gstin_length {text g : String}
    (h : extract_gstin text = some g) : g.length = 15 := by
  unfold extract_gstin at h
  rcases hs : searchFirst (matchClasses gstinClasses) (upperAscii text).data
    with _ | cs <;> rw [hs] at h
  · simp at h
  · simp at h
    obtain ⟨l', hl'⟩ := searchFirst_some hs
    have hlen := matchClasses_length hl'
    rw [← h]
    simpa using hlen

/-- Because a parsed GSTIN always has length 15, the GSTIN rule only ever
produces the "not found" anomaly or nothing. -/
theorem gstinAnomalies_shape (text : String) :
    gstinAnomalies text = [("High", "GSTIN not found in document")] ∨
      gstinAnomalies text = [] := by
  rcases hg : extract_gstin text with _ | g
  · exact Or.inl (by simp [gstinAnomalies, hg])
  · exact Or.inr (by simp [gstinAnomalies, hg, extract_gstin_length hg])

/-- Unfolding equation of `processBatch` on a cons cell (the pair match
reduces by structure eta). -/
theorem processBatch_cons (stored : List StoredDoc) (n t : String)
    (rest : List (String × String)) :
    processBatch stored ((n, t) :: rest) =
      processBatch
        (stored ++ [⟨n, calculate_hash (process_document stored t).2,
          (process_document stored t).2, (process_document stored t).1⟩])
        rest := rfl

/-- Unfolding equation of `processFrom` on a cons cell. -/
theorem processFrom_cons (stored : List StoredDoc) (n t : String)
    (rest : List (String × String)) :
    processFrom stored ((n, t) :: rest) =
      (⟨n, calculate_hash (process_document stored t).2,
          (process_document stored t).2, (process_document stored t).1⟩ : StoredDoc)
        :: processFrom
          (stored ++ [⟨n, calculate_hash (process_document stored t).2,
            (process_document stored t).2, (process_document stored t).1⟩])
          rest := rfl

/-- Processing a concatenated batch processes the halves in order. -/
theorem processBatch_append_batch (stored : List StoredDoc)
    (xs ys : List (String × String)) :
    processBatch stored (xs ++ ys) = processBatch (processBatch stored xs) ys := by
  induction xs generalizing stored with
  | nil => rfl
  | cons x xs ih =>
    rcases x with ⟨n, t⟩
    rw [List.cons_append, processBatch_cons, processBatch_cons]
    exact ih _

/-- The loop only appends: the final store is the initial store followed by
the newly created records. -/
theorem processBatch_eq (stored : List StoredDoc)
    (batch : List (String × String)) :
    processBatch stored batch = stored ++ processFrom stored batch := by
  induction batch generalizing stored with
  | nil => simp [processBatch, processFrom]
  | cons x rest ih =>
    rcases x with ⟨n, t⟩
    rw [processBatch_cons, processFrom_cons, ih]
    simp

/-- One record is appended per batch item. -/
theorem processFrom_length (stored : List StoredDoc)
    (batch : List (String × String)) :
    (processFrom stored batch).length = batch.length := by
  induction batch generalizing stored with
  | nil => rfl
  | cons x rest ih =>
    rcases x with ⟨n, t⟩
    rw [processFrom_cons]
    simp [ih]

/-- The `i`-th new record: built from the `i`-th batch item, its duplicate
check run against the store as it was just before that item. -/
theorem processFrom_getElem? (batch : List (String × String))
    (stored : List StoredDoc) (i : Nat) (n t : String)
    (hb : batch[i]? = some (n, t)) :
    (processFrom stored batch)[i]? =
      some ⟨n, calculate_hash t, t,
        (process_document (stored ++ processFrom stored (batch.take i)) t).1⟩ := by
  induction batch generalizing stored i with
  | nil => simp at hb
  | cons x rest ih =>
    rcases x with ⟨n0, t0⟩
    cases i with
    | zero =>
      simp at hb
      obtain ⟨hn, ht⟩ := hb
      subst hn; subst ht
      rw [processFrom_cons]
      simp [process_document_snd, processFrom]
    | succ i =>
      rw [processFrom_cons]
      simp only [List.getElem?_cons_succ, List.take_succ_cons]
      rw [ih _ _ (by simpa using hb), processFrom_cons]
      simp [List.append_assoc]

/-- Every record the loop creates carries the hash of the text of some batch
item. -/
theorem mem_processFrom {r : StoredDoc} {stored : List StoredDoc}
    {batch : List (String × String)} (hr : r ∈ processFrom stored batch) :
    ∃ (j : Nat) (n' t' : String),
      batch[j]? = some (n', t') ∧ r.hash = calculate_hash t' ∧ r.text = t' := by
  induction batch generalizing stored with
  | nil => simp [processFrom] at hr
  | cons x rest ih =>
    rcases x with ⟨n0, t0⟩
    rw [processFrom_cons] at hr
    rcases List.mem_cons.mp hr with h | h
    · exact ⟨0, n0, t0, by simp, by rw [h]; simp [process_document_snd],
        by rw [h]; simp [process_document_snd]⟩
    · obtain ⟨j, n', t', hj, hh, htx⟩ := ih h
      exact ⟨j + 1, n', t', by simpa using hj, hh, htx⟩

/-! ## Non-membership of specific anomaly pairs in the other rules -/

/-- The duplicate-anomaly pair never comes from the GSTIN rule. -/
theorem dup_not_mem_gstinAnomalies (text : String) :
    ("High", "Duplicate document detected") ∉ gstinAnomalies text := by
  intro hp
  rcases mem_gstinAnomalies hp with h | ⟨g, _, h⟩
  · exact absurd h (by decide)
  · have h2 : "Duplicate document detected" = "Invalid GSTIN format: " ++ g :=
      congrArg Prod.snd h
    exact append_ne_of_head_ne 'I' 'D' _ _ _ g _ rfl rfl (by decide) h2.symm

/-- The duplicate-anomaly pair never comes from the rate rule. -/
theorem dup_not_mem_gstRateAnomalies (text : String) :
    ("High", "Duplicate document detected") ∉ gstRateAnomalies text := by
  intro hp
  rcases mem_gstRateAnomalies hp with h | ⟨r, h⟩
  · exact absurd h (by decide)
  · have h2 : "High" = "Medium" := congrArg Prod.fst h
    exact absurd h2 (by decide)

/-- The duplicate-anomaly pair never comes from the calculation rule. -/
theorem dup_not_mem_calculationAnomalies (text : String) :
    ("High", "Duplicate document detected") ∉ calculationAnomalies text := by
  intro hp
  rcases mem_calculationAnomalies hp with h | ⟨s, h⟩
  · exact absurd h (by decide)
  · have h2 : "Duplicate document detected" = "Calculation mismatch: " ++ s :=
      congrArg Prod.snd h
    exact append_ne_of_head_ne 'C' 'D' _ _ _ s _ rfl rfl (by decide) h2.symm

/-- The GSTIN-not-found pair never comes from the duplicate rule. -/
theorem notfound_not_mem_duplicateAnomalies (stored : List StoredDoc)
    (text : String) :
    ("High", "GSTIN not found in document") ∉ duplicateAnomalies stored text := by
  intro hp
  exact absurd (mem_duplicateAnomalies hp) (by decide)

/-- The GSTIN-not-found pair never comes from the rate rule. -/
theorem notfound_not_mem_gstRateAnomalies (text : String) :
    ("High", "GSTIN not found in document") ∉ gstRateAnomalies text := by
  intro hp
  rcases mem_gstRateAnomalies hp with h | ⟨r, h⟩
  · exact absurd h (by decide)
  · have h2 : "High" = "Medium" := congrArg Prod.fst h
    exact absurd h2 (by decide)

/-- The GSTIN-not-found pair never comes from the calculation rule. -/
theorem notfound_not_mem_calculationAnomalies (text : String) :
    ("High", "GSTIN not found in document") ∉ calculationAnomalies text := by
  intro hp
  rcases mem_calculationAnomalies hp with h | ⟨s, h⟩
  · exact absurd h (by decide)
  · have h2 : "GSTIN not found in document" = "Calculation mismatch: " ++ s :=
      congrArg Prod.snd h
    exact append_ne_of_head_ne 'C' 'G' _ _ _ s _ rfl rfl (by decide) h2.symm

/-- For non-empty text the duplicate anomaly appears exactly once when some
stored hash matches, and not at all otherwise. -/
theorem count_dup_process_document (stored : List StoredDoc) (text : String)
    (h : text ≠ "") :
    ((process_document stored text).1).count
        ("High", "Duplicate document detected") =
      if stored.any (fun doc => doc.hash == calculate_hash text) then 1
      else 0 := by
  rw [process_document_decomp stored text h]
  show (duplicateAnomalies stored text ++ gstinAnomalies text ++
    gstRateAnomalies text ++ calculationAnomalies text).count _ = _
  rw [List.count_append, List.count_append, List.count_append,
    List.count_eq_zero_of_not_mem (dup_not_mem_gstinAnomalies text),
    List.count_eq_zero_of_not_mem (dup_not_mem_gstRateAnomalies text),
    List.count_eq_zero_of_not_mem (dup_not_mem_calculationAnomalies text)]
  unfold duplicateAnomalies
  split <;> simp

/-- For non-empty text with no GSTIN-shaped substring, "GSTIN not found in
document" appears exactly once. -/
theorem count_notfound_process_document (stored : List StoredDoc)
    (text : String) (h : text ≠ "") (hg : extract_gstin text = none) :
    ((process_document stored text).1).count
        ("High", "GSTIN not found in document") = 1 := by
  rw [process_document_decomp stored text h]
  show (duplicateAnomalies stored text ++ gstinAnomalies text ++
    gstRateAnomalies text ++ calculationAnomalies text).count _ = _
  rw [List.count_append, List.count_append, List.count_append,
    List.count_eq_zero_of_not_mem (notfound_not_mem_duplicateAnomalies stored text),
    List.count_eq_zero_of_not_mem (notfound_not_mem_gstRateAnomalies text),
    List.count_eq_zero_of_not_mem (notfound_not_mem_calculationAnomalies text)]
  simp [gstinAnomalies, hg]

/-- The duplicate anomaly is reported exactly when the text is non-empty
and some stored hash equals the document's hash. -/
theorem dup_mem_process_document {stored : List StoredDoc} {text : String}
    (h : ("High", "Duplicate document detected") ∈
      (process_document stored text).1) :
    text ≠ "" ∧
      stored.any (fun doc => doc.hash == calculate_hash text) = true := by
  by_cases ht : text = ""
  · subst ht
    simp only [process_document, if_pos rfl] at h
    exact absurd (by simpa using h :
      (("High", "Duplicate document detected") : String × String) =
        ("Critical", "Could not extract text from document")) (by decide)
  · refine ⟨ht, ?_⟩
    rw [process_document_decomp stored text ht] at h
    replace h : ("High", "Duplicate document detected") ∈
      duplicateAnomalies stored text ++ gstinAnomalies text ++
        gstRateAnomalies text ++ calculationAnomalies text := h
    rcases List.mem_append.mp h with h123 | h4
    · rcases List.mem_append.mp h123 with h12 | h3
      · rcases List.mem_append.mp h12 with h1 | h2
        · unfold duplicateAnomalies at h1
          split at h1
          · assumption
          · simp at h1
        · exact absurd h2 (dup_not_mem_gstinAnomalies text)
      · exact absurd h3 (dup_not_mem_gstRateAnomalies text)
    · exact absurd h4 (dup_not_mem_calculationAnomalies text)

/-- Every anomaly of a processed document is `Critical`, `High`, or comes
from the GST-rate rule (the only source of `Low`/`Medium` severities). -/
theorem mem_process_document_severity {stored : List StoredDoc}
    {text : String} {p : String × String}
    (hp : p ∈ (process_document stored text).1) :
    p.1 = "Critical" ∨ p.1 = "High" ∨ p ∈ gstRateAnomalies text := by
  by_cases ht : text = ""
  · subst ht
    simp only [process_document, if_pos rfl] at hp
    rw [show p = ("Critical", "Could not extract text from document")
      from by simpa using hp]
    exact Or.inl rfl
  · rw [process_document_decomp stored text ht] at hp
    replace hp : p ∈
      duplicateAnomalies stored text ++ gstinAnomalies text ++
        gstRateAnomalies text ++ calculationAnomalies text := hp
    rcases List.mem_append.mp hp with h123 | h4
    · rcases List.mem_append.mp h123 with h12 | h3
      · rcases List.mem_append.mp h12 with h1 | h2
        · rw [mem_duplicateAnomalies h1]
          exact Or.inr (Or.inl rfl)
        · rcases mem_gstinAnomalies h2 with h | ⟨g, _, h⟩ <;>
            rw [h] <;> exact Or.inr (Or.inl rfl)
      · exact Or.inr (Or.inr h3)
    · rcases mem_calculationAnomalies h4 with h | ⟨s, h⟩ <;>
        rw [h] <;> exact Or.inr (Or.inl rfl)

/-! ## Claim theorems -/

/-- Claim C1, counterexample: for a document whose extraction produced empty
text, the GST-rate rule's contribution (`Low`, "GST rate not specified" —
nonempty for empty text) is absent from the document's anomaly list, because
`process_document` returns just the `Critical` entry before any rule runs.
So the four rules are not all evaluated "including when extraction produced
empty text". -/
theorem c1_empty_text_counterexample :
    ("Low", "GST rate not specified") ∈ gstRateAnomalies "" ∧
      ("Low", "GST rate not specified") ∉ (process_document [] "").1 := by
  decide

/-- Claim C1, amended: for every document with NON-EMPTY extracted text, all
four rule checks (duplicate, GSTIN, GST rate, calculation) are evaluated and
never short-circuit each other — the anomaly list is exactly the
concatenation of the four rules' independent contributions (each rule a
function of the text alone, the duplicate rule of the store and text alone).
Empty extracted text instead short-circuits to the single `Critical`
extraction anomaly. -/
theorem c1_all_rules_contribute (stored : List StoredDoc) (text : String)
    (h : text ≠ "") :
    (process_document stored text).1 =
      duplicateAnomalies stored text ++ gstinAnomalies text ++
        gstRateAnomalies text ++ calculationAnomalies text := by
  rw [process_document_decomp stored text h]

/-- Witness for C1's amended theorem at a concrete non-empty text. -/
theorem c1_all_rules_contribute_witness :
    ("invoice" ≠ "") ∧
      (process_document [] "invoice").1 =
        duplicateAnomalies [] "invoice" ++ gstinAnomalies "invoice" ++
          gstRateAnomalies "invoice" ++ calculationAnomalies "invoice" :=
  ⟨by decide, c1_all_rules_contribute [] "invoice" (by decide)⟩

/-- Claim C2 (code bug): on the spec's canonical passing input — the three
lines "Sub Total : 100.00", "GST : 18.00", "Total : 118.00" — the code DOES
emit a calculation-mismatch anomaly: `re.search` for `Total\s*:\s*(\d+\.\d{2})`
finds its leftmost match inside "Sub Total : 100.00", so `total` is parsed
as 100.0 and compared against 100.0 + 18.0. -/
theorem c2_spec_example_mismatches :
    check_calculations "Sub Total : 100.00\nGST : 18.00\nTotal : 118.00" =
      (false, "Calculation mismatch: 100.0 + 18.0 ≠ 100.0") ∧
      ("High", "Calculation mismatch: 100.0 + 18.0 ≠ 100.0") ∈
        (process_document []
          "Sub Total : 100.00\nGST : 18.00\nTotal : 118.00").1 := by
  decide

/-- Claim C3, counterexample: the 14-character near-miss "27AAAPL1234C1Z"
does not match the 15-character GSTIN regex at all, so the document gets
"GSTIN not found in document", not "Invalid GSTIN format: 27AAAPL1234C1Z". -/
theorem c3_near_miss_counterexample :
    ("High", "Invalid GSTIN format: 27AAAPL1234C1Z") ∉
        (process_document [] "27AAAPL1234C1Z").1 ∧
      ("High", "GSTIN not found in document") ∈
        (process_document [] "27AAAPL1234C1Z").1 := by
  decide

/-- Claim C3, amended: any non-empty text in which the GSTIN regex finds no
match (which is the case for the 14-character near-miss with no other
GSTIN-shaped substring) yields exactly one GSTIN anomaly: `High`
"GSTIN not found in document"; no "Invalid GSTIN format" anomaly ever
appears. -/
theorem c3_no_gstin_yields_notfound (stored : List StoredDoc) (text : String)
    (h : text ≠ "") (hg : extract_gstin text = none) :
    ((process_document stored text).1).count
        ("High", "GSTIN not found in document") = 1 ∧
      ∀ m, ("High", "Invalid GSTIN format: " ++ m) ∉
        (process_document stored text).1 := by
  refine ⟨count_notfound_process_document stored text h hg, ?_⟩
  intro m hm
  rw [process_document_decomp stored text h] at hm
  replace hm : ("High", "Invalid GSTIN format: " ++ m) ∈
    duplicateAnomalies stored text ++ gstinAnomalies text ++
      gstRateAnomalies text ++ calculationAnomalies text := hm
  rcases List.mem_append.mp hm with h123 | h4
  · rcases List.mem_append.mp h123 with h12 | h3
    · rcases List.mem_append.mp h12 with h1 | h2
      · have h2 : "Invalid GSTIN format: " ++ m = "Duplicate document detected" :=
          congrArg Prod.snd (mem_duplicateAnomalies h1)
        exact append_ne_of_head_ne 'I' 'D' _ _ _ m _ rfl rfl (by decide) h2
      · rw [show gstinAnomalies text = [("High", "GSTIN not found in document")]
          from by simp [gstinAnomalies, hg]] at h2
        have h2 : "Invalid GSTIN format: " ++ m = "GSTIN not found in document" :=
          congrArg Prod.snd (List.mem_singleton.mp h2)
        exact append_ne_of_head_ne 'I' 'G' _ _ _ m _ rfl rfl (by decide) h2
    · rcases mem_gstRateAnomalies h3 with hq | ⟨rr, hq⟩
      · exact absurd (show "High" = "Low" from congrArg Prod.fst hq) (by decide)
      · exact absurd (show "High" = "Medium" from congrArg Prod.fst hq) (by decide)
  · rcases mem_calculationAnomalies h4 with hq | ⟨s, hq⟩
    · have h2 : "Invalid GSTIN format: " ++ m = "Total amount not found" :=
        congrArg Prod.snd hq
      exact append_ne_of_head_ne 'I' 'T' _ _ _ m _ rfl rfl (by decide) h2
    · have h2 : "Invalid GSTIN format: " ++ m = "Calculation mismatch: " ++ s :=
        congrArg Prod.snd hq
      exact append_ne_append_of_head_ne 'I' 'C' _ _ _ m _ s rfl rfl
        (by decide) h2

/-- Witness for C3's amended theorem at the near-miss text. -/
theorem c3_no_gstin_yields_notfound_witness :
    ((process_document [] "27AAAPL1234C1Z").1).count
        ("High", "GSTIN not found in document") = 1 ∧
      ("High", "Invalid GSTIN format: " ++ "X") ∉
        (process_document [] "27AAAPL1234C1Z").1 :=
  ⟨(c3_no_gstin_yields_notfound [] "27AAAPL1234C1Z" (by decide) (by decide)).1,
   (c3_no_gstin_yields_notfound [] "27AAAPL1234C1Z" (by decide) (by decide)).2 "X"⟩

/-- Claim C4: two documents with identical non-empty extracted text, whose
hash is not yet in the store, processed in sequence by the session loop: the
first gets no duplicate anomaly (the duplicate check only consults records
stored before it — its own record is appended after processing), the second
gets exactly one `High` "Duplicate document detected" anomaly. -/
theorem c4_duplicate_rule_pair (stored : List StoredDoc) (n1 n2 t : String)
    (ht : t ≠ "") (hfresh : ∀ d ∈ stored, d.hash ≠ calculate_hash t) :
    (processFrom stored [(n1, t), (n2, t)]).map
        (fun r => r.anomalies.count ("High", "Duplicate document detected")) =
      [0, 1] := by
  have hany : stored.any (fun doc => doc.hash == calculate_hash t) = false := by
    rw [List.any_eq_false]
    intro d hd
    simp only [beq_iff_eq]
    exact hfresh d hd
  have hany2 : ((stored ++
      [(⟨n1, calculate_hash (process_document stored t).2,
        (process_document stored t).2, (process_document stored t).1⟩ :
          StoredDoc)]).any
      (fun doc => doc.hash == calculate_hash t)) = true := by
    rw [List.any_append]
    simp [process_document_snd]
  rw [processFrom_cons, processFrom_cons]
  simp only [processFrom, List.map_cons, List.map_nil]
  rw [count_dup_process_document stored t ht,
    count_dup_process_document _ t ht, hany, hany2]
  simp

/-- Witness for C4 with a fresh session and text "x". -/
theorem c4_duplicate_rule_pair_witness :
    (processFrom [] [("a", "x"), ("b", "x")]).map
        (fun r => r.anomalies.count ("High", "Duplicate document detected")) =
      [0, 1] :=
  c4_duplicate_rule_pair [] "a" "b" "x" (by decide) (by simp)

/-- Claim C5: extraction failure is non-fatal.  A batch item whose extracted
text is empty is recorded with exactly the single `Critical` anomaly and an
empty-text store entry (hash of the empty string), and the loop then
continues with the remaining documents exactly as if restarted from the
grown store; the loop is a total function (no exception escapes), appending
one record per document. -/
theorem c5_extraction_failure_nonfatal (stored : List StoredDoc)
    (pre post : List (String × String)) (n : String) :
    processBatch stored (pre ++ (n, "") :: post) =
      processBatch
        (processBatch stored pre ++
          [⟨n, calculate_hash "", "",
            [("Critical", "Could not extract text from document")]⟩]) post ∧
      (processBatch stored (pre ++ (n, "") :: post)).length =
        stored.length + (pre.length + 1 + post.length) := by
  constructor
  · rw [processBatch_append_batch, processBatch_cons]
    rfl
  · rw [processBatch_eq, List.length_append, processFrom_length,
      List.length_append, List.length_cons]
    omega

/-- Claim C6: the content hash is deterministic — `hash(T) = hash(T)` for
every text, byte-identical texts give identical digests — and every record
the processing loop stores has `contentHash` equal to the hash of its stored
text (purity of the stored fingerprint). -/
theorem c6_hash_deterministic_and_pure :
    (∀ T : String, calculate_hash T = calculate_hash T) ∧
      (∀ T1 T2 : String, T1 = T2 → calculate_hash T1 = calculate_hash T2) ∧
      (∀ (stored : List StoredDoc) (batch : List (String × String)),
        ∀ r ∈ processFrom stored batch, r.hash = calculate_hash r.text) := by
  refine ⟨fun T => rfl, fun T1 T2 h12 => by rw [h12], ?_⟩
  intro stored batch r hr
  obtain ⟨j, n', t', hj, hh, htx⟩ := mem_processFrom hr
  rw [hh, htx]

/-- Witness for C6 on a concrete batch record. -/
theorem c6_hash_deterministic_witness :
    calculate_hash "x" = calculate_hash "x" ∧
      (⟨"a", calculate_hash (process_document [] "x").2,
          (process_document [] "x").2,
          (process_document [] "x").1⟩ : StoredDoc).hash =
        calculate_hash
          (⟨"a", calculate_hash (process_document [] "x").2,
            (process_document [] "x").2,
            (process_document [] "x").1⟩ : StoredDoc).text :=
  ⟨c6_hash_deterministic_and_pure.2.1 "x" "x" rfl,
   c6_hash_deterministic_and_pure.2.2 [] [("a", "x")] _ (List.Mem.head _)⟩

/-- Claim C7: for any non-empty text — if no `GST...%` pattern is found the
document gets the `Low` "GST rate not specified" anomaly; if a rate is
parsed whose digit string is not a key of `GST_RATES` it gets the `Medium`
"Non-standard GST rate: <value>%" anomaly; if the parsed digit string is a
standard key the document gets no rate anomaly (no `Low` or `Medium` entry
at all — the other rules only produce `Critical`/`High`). -/
theorem c7_gst_rate_rule (stored : List StoredDoc) (text : String)
    (h : text ≠ "") :
    (extract_gst_rate text = none →
      ("Low", "GST rate not specified") ∈ (process_document stored text).1) ∧
      (∀ r, extract_gst_rate text = some r → r ∉ GST_RATES.map Prod.fst →
        ("Medium", "Non-standard GST rate: " ++ r ++ "%") ∈
          (process_document stored text).1) ∧
      (∀ r, extract_gst_rate text = some r → r ∈ GST_RATES.map Prod.fst →
        ∀ m, ("Low", m) ∉ (process_document stored text).1 ∧
          ("Medium", m) ∉ (process_document stored text).1) := by
  refine ⟨?_, ?_, ?_⟩
  · intro hr
    rw [process_document_decomp stored text h]
    refine List.mem_append.mpr (Or.inl (List.mem_append.mpr (Or.inr ?_)))
    simp [gstRateAnomalies, hr]
  · intro r hr hnot
    have hany : (GST_RATES.any fun kv => decide (kv.1 = r)) = false := by
      rw [List.any_eq_false]
      intro kv hkv
      simp only [decide_eq_true_eq]
      intro heq
      exact hnot (List.mem_map.mpr ⟨kv, hkv, heq⟩)
    rw [process_document_decomp stored text h]
    refine List.mem_append.mpr (Or.inl (List.mem_append.mpr (Or.inr ?_)))
    simp [gstRateAnomalies, hr, validate_gst_rate, hany]
  · intro r hr hin m
    have hany : (GST_RATES.any fun kv => decide (kv.1 = r)) = true := by
      rw [List.any_eq_true]
      obtain ⟨kv, hkv, heq⟩ := List.mem_map.mp hin
      exact ⟨kv, hkv, by simp [heq]⟩
    have hrate : gstRateAnomalies text = [] := by
      simp [gstRateAnomalies, hr, validate_gst_rate, hany]
    constructor <;> intro hp
    · rcases mem_process_document_severity hp with hs | hs | hs
      · exact absurd (show "Low" = "Critical" from hs) (by decide)
      · exact absurd (show "Low" = "High" from hs) (by decide)
      · rw [hrate] at hs
        exact absurd hs (List.not_mem_nil _)
    · rcases mem_process_document_severity hp with hs | hs | hs
      · exact absurd (show "Medium" = "Critical" from hs) (by decide)
      · exact absurd (show "Medium" = "High" from hs) (by decide)
      · rw [hrate] at hs
        exact absurd hs (List.not_mem_nil _)

/-- Witness for C7 at a standard rate: "GST @18%" yields no rate anomaly. -/
theorem c7_gst_rate_rule_witness :
    ("Low", "x") ∉ (process_document [] "GST @18%").1 ∧
      ("Medium", "x") ∉ (process_document [] "GST @18%").1 :=
  (c7_gst_rate_rule [] "GST @18%" (by decide)).2.2 "18" (by decide)
    (by decide) "x"

/-- Claim C8: after "Clear All Data" resets the store to `[]`, a duplicate
flag on the `i`-th document of a fresh batch can only come from an earlier
document of that same batch with the same hash — never from any pre-clear
record (the result does not depend on the pre-clear store at all). -/
theorem c8_clear_then_no_cross_duplicates (pre : List StoredDoc)
    (batch : List (String × String)) (i : Nat) (n t : String) (r : StoredDoc)
    (hb : batch[i]? = some (n, t))
    (hr : (processBatch (clearStore pre) batch)[i]? = some r)
    (hdup : ("High", "Duplicate document detected") ∈ r.anomalies) :
    ∃ (j : Nat) (n' t' : String), j < i ∧ batch[j]? = some (n', t') ∧
      calculate_hash t' = calculate_hash t := by
  have hclear : processBatch (clearStore pre) batch = processFrom [] batch := by
    rw [show clearStore pre = [] from rfl, processBatch_eq, List.nil_append]
  rw [hclear, processFrom_getElem? batch [] i n t hb] at hr
  replace hr : r = ⟨n, calculate_hash t, t,
      (process_document ([] ++ processFrom [] (batch.take i)) t).1⟩ :=
    (Option.some.inj hr).symm
  rw [List.nil_append] at hr
  rw [hr] at hdup
  replace hdup : ("High", "Duplicate document detected") ∈
    (process_document (processFrom [] (batch.take i)) t).1 := hdup
  obtain ⟨ht, hany⟩ := dup_mem_process_document hdup
  rw [List.any_eq_true] at hany
  obtain ⟨d, hd, hdh⟩ := hany
  obtain ⟨j, n', t', hj, hh, _⟩ := mem_processFrom hd
  rw [List.getElem?_take] at hj
  by_cases hlt : j < i
  · rw [if_pos hlt] at hj
    refine ⟨j, n', t', hlt, hj, ?_⟩
    rw [← hh]
    exact beq_iff_eq.mp hdh
  · rw [if_neg hlt] at hj
    exact absurd hj (by simp)

/-- Witness for C8: in a fresh session, the second of two identical
documents is flagged, and the flag is explained by the first. -/
theorem c8_clear_then_no_cross_duplicates_witness :
    ∃ (j : Nat) (n' t' : String), j < 1 ∧
      [("a", "x"), ("b", "x")][j]? = some (n', t') ∧
      calculate_hash t' = calculate_hash "x" :=
  c8_clear_then_no_cross_duplicates [] [("a", "x"), ("b", "x")] 1 "b" "x"
    ⟨"b", calculate_hash "x", "x",
      (process_document [⟨"a", calculate_hash "x", "x",
        (process_document [] "x").1⟩] "x").1⟩
    (by decide) rfl (by decide)

/-- Claim C9 (implicit): whatever `extract_gstin` returns has length exactly
15 (the regex is 15 single-character classes), so the `len != 15` branch is
dead code and no document ever receives an "Invalid GSTIN format" anomaly. -/
theorem c9_invalid_format_unreachable :
    (∀ text g : String, extract_gstin text = some g → g.length = 15) ∧
      (∀ (stored : List StoredDoc) (text : String) (p : String × String),
        p ∈ (process_document stored text).1 →
        ∀ m : String, p ≠ ("High", "Invalid GSTIN format: " ++ m)) := by
  constructor
  · exact fun text g hg => extract_gstin_length hg
  · intro stored text p hp m heq
    subst heq
    by_cases ht : text = ""
    · subst ht
      simp only [process_document, if_pos rfl] at hp
      have h2 : "High" = "Critical" :=
        congrArg Prod.fst (List.mem_singleton.mp hp)
      exact absurd h2 (by decide)
    · rw [process_document_decomp stored text ht] at hp
      replace hp : ("High", "Invalid GSTIN format: " ++ m) ∈
        duplicateAnomalies stored text ++ gstinAnomalies text ++
          gstRateAnomalies text ++ calculationAnomalies text := hp
      rcases List.mem_append.mp hp with h123 | h4
      · rcases List.mem_append.mp h123 with h12 | h3
        · rcases List.mem_append.mp h12 with h1 | h2
          · have hq : "Invalid GSTIN format: " ++ m =
                "Duplicate document detected" :=
              congrArg Prod.snd (mem_duplicateAnomalies h1)
            exact append_ne_of_head_ne 'I' 'D' _ _ _ m _ rfl rfl
              (by decide) hq
          · rcases gstinAnomalies_shape text with hsh | hsh
            · rw [hsh] at h2
              have hq : "Invalid GSTIN format: " ++ m =
                  "GSTIN not found in document" :=
                congrArg Prod.snd (List.mem_singleton.mp h2)
              exact append_ne_of_head_ne 'I' 'G' _ _ _ m _ rfl rfl
                (by decide) hq
            · rw [hsh] at h2
              exact absurd h2 (List.not_mem_nil _)
        · rcases mem_gstRateAnomalies h3 with hq | ⟨rr, hq⟩
          · exact absurd (show "High" = "Low" from congrArg Prod.fst hq)
              (by decide)
          · exact absurd (show "High" = "Medium" from congrArg Prod.fst hq)
              (by decide)
      · rcases mem_calculationAnomalies h4 with hq | ⟨s, hq⟩
        · have hq2 : "Invalid GSTIN format: " ++ m = "Total amount not found" :=
            congrArg Prod.snd hq
          exact append_ne_of_head_ne 'I' 'T' _ _ _ m _ rfl rfl (by decide) hq2
        · have hq2 : "Invalid GSTIN format: " ++ m =
              "Calculation mismatch: " ++ s := congrArg Prod.snd hq
          exact append_ne_append_of_head_ne 'I' 'C' _ _ _ m _ s rfl rfl
            (by decide) hq2

/-- Witness for C9: a valid GSTIN has length 15, and a concrete anomaly of a
processed document is not an "Invalid GSTIN format" anomaly. -/
theorem c9_invalid_format_unreachable_witness :
    ("27AAAPL1234C1Z5" : String).length = 15 ∧
      (("High", "Total amount not found") : String × String) ≠
        ("High", "Invalid GSTIN format: " ++ "X") :=
  ⟨c9_invalid_format_unreachable.1 "x 27AAAPL1234C1Z5 y" "27AAAPL1234C1Z5"
      (by decide),
   c9_invalid_format_unreachable.2 [] "x 27AAAPL1234C1Z5 y"
      ("High", "Total amount not found") (by decide) "X"⟩

/-- Claim C10 (implicit): every batch document whose extracted text is empty
is stored with the hash of the empty string (so two such records carry the
identical hash) and its anomaly list is exactly the single `Critical`
extraction entry — in particular the second and every later empty-text
document receives no duplicate anomaly despite the equal stored hashes. -/
theorem c10_empty_text_records (stored : List StoredDoc)
    (batch : List (String × String)) (i : Nat) (n : String) (r : StoredDoc)
    (hb : batch[i]? = some (n, ""))
    (hr : (processFrom stored batch)[i]? = some r) :
    r.hash = calculate_hash "" ∧ r.text = "" ∧
      r.anomalies = [("Critical", "Could not extract text from document")] := by
  rw [processFrom_getElem? batch stored i n "" hb] at hr
  replace hr : r = ⟨n, calculate_hash "", "",
      (process_document (stored ++ processFrom stored (batch.take i)) "").1⟩ :=
    (Option.some.inj hr).symm
  rw [hr]
  exact ⟨rfl, rfl, rfl⟩

/-- Witness for C10: the second of two empty-text documents in a fresh
session. -/
theorem c10_empty_text_records_witness :
    (⟨"b", calculate_hash "", "",
        [("Critical", "Could not extract text from document")]⟩ :
      StoredDoc).hash = calculate_hash "" ∧
      (⟨"b", calculate_hash "", "",
          [("Critical", "Could not extract text from document")]⟩ :
        StoredDoc).text = "" ∧
      (⟨"b", calculate_hash "", "",
          [("Critical", "Could not extract text from document")]⟩ :
        StoredDoc).anomalies =
        [("Critical", "Could not extract text from document")] :=
  c10_empty_text_records [] [("a", ""), ("b", "")] 1 "b"
    ⟨"b", calculate_hash "", "",
      [("Critical", "Could not extract text from document")]⟩
    (by decide) rfl

end Anomaly
